import Mathlib

/-!
# Verification of the routine-notification core

Shallow embedding of the novelty-detection, digest-batching and
credential-expiry logic of the repository (src/fetch.py, src/sendMail.py,
src/db_init.py), together with theorems settling the specification claims.

Time instants are modelled as integers (seconds); the fractional hour count
used by the expiry monitor is modelled as a rational number.  Strings and
lists are modelled directly; the SQLite-backed id cache is modelled as the
list of stored ids ordered newest first (the order `lastroutine` returns).
-/

namespace RoutineNotif

/-! ## Percent-encoding (`urllib.parse.quote_plus`)

`format_course_data` builds `encoded_title = quote_plus(title)`.  Python's
`quote_plus` works on the UTF-8 bytes of the string: ASCII letters, digits
and `_ . - ~` pass through, a space becomes `+`, and every other byte is
rendered as `%XX` with uppercase hex digits. -/

/-- UTF-8 byte sequence of a character (standard encoding algorithm). -/
def utf8Bytes (c : Char) : List Nat :=
  let n := c.toNat
  if n < 0x80 then [n]
  else if n < 0x800 then [0xC0 + n / 0x40, 0x80 + n % 0x40]
  else if n < 0x10000 then
    [0xE0 + n / 0x1000, 0x80 + (n / 0x40) % 0x40, 0x80 + n % 0x40]
  else
    [0xF0 + n / 0x40000, 0x80 + (n / 0x1000) % 0x40,
     0x80 + (n / 0x40) % 0x40, 0x80 + n % 0x40]

/-- Uppercase hexadecimal digit for a value below 16. -/
def hexDigit (n : Nat) : Char :=
  if n < 10 then Char.ofNat (48 + n) else Char.ofNat (55 + n)

/-- `%XX` escape of one byte. -/
def pctByte (b : Nat) : String :=
  String.mk ['%', hexDigit (b / 16), hexDigit (b % 16)]

/-- Characters `quote_plus` passes through unescaped (Python's
`ALWAYS_SAFE`: ASCII alphanumerics and `_ . - ~`). -/
def alwaysSafe (c : Char) : Bool :=
  c.isAlpha || c.isDigit || c = '_' || c = '.' || c = '-' || c = '~'

/-- `urllib.parse.quote_plus`: safe characters pass through, a space becomes
`+`, every other character is percent-encoded byte by byte. -/
def quote_plus (s : String) : String :=
  String.join (s.data.map fun c =>
    if alwaysSafe c then String.mk [c]
    else if c = ' ' then "+"
    else String.join ((utf8Bytes c).map pctByte))

/-! ## Entry normalization (`format_course_data`, src/fetch.py lines 27-77) -/

/-- Numeric-id extraction: `re.search(r'p=(\d+)$', id)`.  The match succeeds
exactly when the string ends in a non-empty run of digits immediately
preceded by `p=`; the captured group is that digit run.  Implemented by
taking the maximal digit suffix and checking the two characters before it. -/
def extractId (s : String) : Option String :=
  let rev := s.data.reverse
  let ds := rev.takeWhile Char.isDigit
  if ds ≠ [] ∧ (rev.drop ds.length).take 2 = ['=', 'p'] then
    some (String.mk ds.reverse)
  else
    none

/-- Python `str.strip()`: drop whitespace from both ends. -/
def pyStrip (s : String) : String :=
  String.mk
    (((s.data.dropWhile Char.isWhitespace).reverse.dropWhile
        Char.isWhitespace).reverse)

/-- Base of the search URL built by `format_course_data`. -/
def search_url_base : String :=
  "https://quality.k2kompetanse.no/rutiner/?_kurs_sok="

/-- The routine mapping produced by `format_course_data`.  The publish
instant is kept as an integer count of seconds; `published_norwegian`
stands for the `+2h` Norwegian civil instant from which both the
`published_norwegian`/`published_iso` strings and `formatted_date` are
rendered (the babel/locale rendering itself is thin formatting and is not
re-modelled). -/
structure CourseData where
  id : Option String
  title : String
  published_norwegian : Int
  search_url : String
  encoded_title : String
  deriving Repr, DecidableEq

/-- `format_course_data` (src/fetch.py lines 27-77): trim the title, extract
the numeric id from the entry's id URL, shift the UTC publish instant by
+2 hours, and build the percent-encoded search URL from the title. -/
def format_course_data (rawTitle : String) (entryId : String)
    (publishedUtc : Int) : CourseData :=
  let title := pyStrip rawTitle
  let numeric_id := extractId entryId
  let norwegian_time := publishedUtc + 2 * 3600
  let enc := quote_plus title
  { id := numeric_id
    title := title
    published_norwegian := norwegian_time
    search_url := search_url_base ++ enc
    encoded_title := enc }

/-! ## Novelty classification and cache (src/fetch.py lines 79-132, 270-304;
src/db_init.py) -/

/-- Python's `x in cached_ids` where `x` is the possibly-`None` routine id
and `cached_ids` are the non-NULL TEXT values read back from the
`routine_ids` table: `None` never equals a stored string. -/
def idMem : Option String → List String → Bool
  | none, _ => false
  | some s, cache => cache.contains s

/-- `is_new_routine` (src/fetch.py lines 103-132): the routine's publish
instant is parsed and logged but the decision is pure cache membership of
the routine id. -/
def is_new_routine (routine : CourseData) (cached_ids : List String) : Bool :=
  !(idMem routine.id cached_ids)

/-- `updatecache` (src/fetch.py lines 270-304) on the modelled cache.  The
insert is `INSERT OR IGNORE` into a column declared `TEXT UNIQUE NOT NULL`
(src/db_init.py lines 21-27): a duplicate is ignored, a NULL id is skipped
by the IGNORE conflict resolution, and a fresh id becomes the newest row
(head of the list ordered by `created_at DESC`).  No row is ever deleted. -/
def updatecache (id : Option String) (cache : List String) : List String :=
  match id with
  | none => cache
  | some s => if cache.contains s then cache else s :: cache

/-! ## One polling pass (`test_rss_feed`, src/fetch.py lines 135-268, and
`callMailFunction`, lines 307-330)

The loop body is modelled as a fold over the normalized entries.  The
mailer outcome (the boolean `sendMail` returns) is abstracted as a function
of the routine so that theorems can quantify over it. -/

/-- Mutable state threaded through one pass: the id cache, the running
count of processed entries (`all_routines`), the collected new routines,
the number of `sendMail` invocations, the number of successful sends, and
the `is_first_routine` / `first_routine_id` module globals. -/
structure PassState where
  cache : List String
  allCount : Nat
  newRoutines : List CourseData
  mailCalls : Nat
  sentOk : Nat
  isFirst : Bool
  firstId : Option String
  deriving Repr, DecidableEq

/-- Initial state of a fresh process: empty cache, `is_first_routine = True`,
`first_routine_id = None`. -/
def initState : PassState :=
  { cache := [], allCount := 0, newRoutines := [], mailCalls := 0
    sentOk := 0, isFirst := true, firstId := none }

/-- `callMailFunction`'s state update (src/fetch.py lines 307-330): only a
successful send clears `is_first_routine` and records `first_routine_id`. -/
def callMailFunction (result : Bool) (id : Option String)
    (isFirst : Bool) (firstId : Option String) : Bool × Option String :=
  if result then (false, if isFirst then id else firstId)
  else (isFirst, firstId)

/-- One iteration of the `for entry in feed.entries` loop in
`test_rss_feed`: every entry is appended to `all_routines`; a routine
classified new is mailed (one `sendMail` invocation) and its id is written
to the cache afterwards, unconditionally on the mail outcome. -/
def processEntry (mailer : CourseData → Bool) (st : PassState)
    (r : CourseData) : PassState :=
  if is_new_routine r st.cache then
    let res := mailer r
    { cache := updatecache r.id st.cache
      allCount := st.allCount + 1
      newRoutines := st.newRoutines ++ [r]
      mailCalls := st.mailCalls + 1
      sentOk := st.sentOk + (if res then 1 else 0)
      isFirst := if res then false else st.isFirst
      firstId := if res && st.isFirst then r.id else st.firstId }
  else
    { st with allCount := st.allCount + 1 }

/-- One polling pass over the normalized feed entries, in feed order. -/
def runPass (mailer : CourseData → Bool) (entries : List CourseData)
    (st : PassState) : PassState :=
  entries.foldl (processEntry mailer) st

/-! ## Credential-expiry monitor (`is_about_to_expire`, src/fetch.py
lines 334-388) -/

/-- The three warning tiers of the coarse policy. -/
inductive Tier where
  | threeWeek
  | twoWeek
  | critical
  deriving Repr, DecidableEq

/-- The `if 420 <= h <= 588 / elif 252 <= h <= 420 / elif h < 252` chain of
`is_about_to_expire` (src/fetch.py lines 358-376), evaluated top to
bottom with elif short-circuiting. -/
def tierOf (h : ℚ) : Option Tier :=
  if 420 ≤ h ∧ h ≤ 588 then some .threeWeek
  else if 252 ≤ h ∧ h ≤ 420 then some .twoWeek
  else if h < 252 then some .critical
  else none

/-- `is_about_to_expire` (src/fetch.py lines 334-388).  `cfg` is the
`CLIENT_SECRET_EXPIRATION_DATE` environment value (`none` when unset; the
Python guard `if not expiration_date` also treats the empty string as
absent).  `hoursUntil` stands for the computed
`(expiration_datetime - now).total_seconds() / 3600`.  The result pairs the
returned `should_notify` flag with whether `ChangeClientSecret` was
invoked (the code calls it exactly when `should_notify` is set). -/
def is_about_to_expire (cfg : Option String) (hoursUntil : ℚ) : Bool × Bool :=
  match cfg with
  | none => (false, false)
  | some s =>
    if s = "" then (false, false)
    else ((tierOf hoursUntil).isSome, (tierOf hoursUntil).isSome)

/-! ## Notification ledger (spec-modelled)

No file under src/ contains the NotificationLedger: the version of the
credential monitor that keeps a per-expiry-date ledger of already-sent
tiers belongs to the parts of the repository outside src/. -/

/-- Entries recorded in the ledger under one expiry-date key. -/
def ledgerEntries (ledger : List (String × List String)) (key : String) :
    List String :=
  match ledger.find? (fun p => p.1 == key) with
  | some p => p.2
  | none => []

/-- Modelled from the spec: the ledger discipline of the
NotificationLedger-bearing credential monitor, which is not among the files
under src/.  "Before evaluating tiers, if `hoursRemaining > 720` (30 days)
and the current expiry-date key already has ledger entries, purge the
entire ledger for that key." -/
def purgeStale (ledger : List (String × List String)) (key : String)
    (hoursRemaining : ℚ) : List (String × List String) :=
  if 720 < hoursRemaining ∧ ledgerEntries ledger key ≠ [] then
    ledger.filter (fun p => !(p.1 == key))
  else ledger

/-- Modelled from the spec: one monitor evaluation with the ledger — the
purge runs first, then the tier is computed from the remaining hours. -/
def monitorWithLedger (ledger : List (String × List String)) (key : String)
    (hoursRemaining : ℚ) : List (String × List String) × Option Tier :=
  (purgeStale ledger key hoursRemaining, tierOf hoursRemaining)

/-! ## The mailer (`sendMail`, src/sendMail.py lines 43-125)

`sendMail` receives a Python object, takes its `len`, iterates it, and
indexes each element with string keys.  To capture the dynamic typing that
the behaviour of src/fetch.py depends on (a dict is passed where a list of
dicts is expected), the argument is modelled as a small Python-value
type. -/

/-- A fragment of Python's value universe: strings, `None`, dicts with
string keys (insertion-ordered key/value lists), and lists. -/
inductive PyVal where
  | vstr (s : String)
  | vnone
  | vdict (fields : List (String × PyVal))
  | vlist (items : List PyVal)

/-- Python `len`: number of keys of a dict, length of a list or string. -/
def pyLen : PyVal → Nat
  | .vstr s => s.length
  | .vnone => 0
  | .vdict fields => fields.length
  | .vlist items => items.length

/-- Python iteration: a dict yields its keys (as strings), a list its
elements, a string its characters. -/
def pyIter : PyVal → List PyVal
  | .vstr s => s.data.map fun c => .vstr (String.mk [c])
  | .vnone => []
  | .vdict fields => fields.map fun kv => .vstr kv.1
  | .vlist items => items

/-- Python `value[key]` with a string key: succeeds only on a dict holding
the key; indexing a string or a list with a string raises `TypeError`. -/
def pyGetItemStr : PyVal → String → Except String PyVal
  | .vdict fields, k =>
    match fields.find? (fun kv => kv.1 == k) with
    | some kv => .ok kv.2
    | none => .error "KeyError"
  | .vstr _, _ => .error "TypeError: string indices must be integers"
  | .vnone, _ => .error "TypeError: NoneType is not subscriptable"
  | .vlist _, _ => .error "TypeError: list indices must be integers"

/-- Rendering a value into the HTML f-string. -/
def pyToStr : PyVal → String
  | .vstr s => s
  | .vnone => "None"
  | .vdict _ => "dict"
  | .vlist _ => "list"

/-- One routine block of the mail body (src/sendMail.py lines 74-81): the
`routine['title']`, `routine['formatted_date']`, `routine['search_url']`
lookups; the surrounding fixed HTML is abstracted to the payload triple. -/
def renderRoutineBlock (routine : PyVal) :
    Except String (String × String × String) :=
  match pyGetItemStr routine "title" with
  | .error e => .error e
  | .ok t =>
    match pyGetItemStr routine "formatted_date" with
    | .error e => .error e
    | .ok d =>
      match pyGetItemStr routine "search_url" with
      | .error e => .error e
      | .ok u => .ok (pyToStr t, pyToStr d, pyToStr u)

/-- The `for routine in routines` body-building loop: stops at the first
raised error (the exception propagates to `sendMail`'s handler). -/
def renderAll : List PyVal → Except String (List (String × String × String))
  | [] => .ok []
  | r :: rest =>
    match renderRoutineBlock r with
    | .error e => .error e
    | .ok triple =>
      match renderAll rest with
      | .error e => .error e
      | .ok rs => .ok (triple :: rs)

/-- Subject line of the digest (src/sendMail.py lines 56-62): plural
phrasing when `len(routines) > 1`, singular otherwise. -/
def subjectFor (count : Nat) : String :=
  if count > 1 then
    "K2 Quality: " ++ toString count ++ " nye rutiner publisert"
  else
    "K2 Quality: 1 ny rutine publisert"

/-- The message `sendMail` renders before posting: the count-encoded
subject and the ordered list of per-routine body blocks; `.error` when the
body-building loop raises. -/
def sendMail_message (routines : PyVal) :
    Except String (String × List (String × String × String)) :=
  match renderAll (pyIter routines) with
  | .error e => .error e
  | .ok entries => .ok (subjectFor (pyLen routines), entries)

/-- `sendMail` (src/sendMail.py lines 43-125): `False` when no access token
is acquired, `False` when building the body raises (caught by the
`except`), otherwise the Graph POST outcome (`True` iff HTTP 202).  `token`
and `status` model the two external effects. -/
def sendMail_py (token : Option String) (status : Nat) (routines : PyVal) :
    Bool :=
  match token with
  | none => false
  | some _ =>
    match sendMail_message routines with
    | .error _ => false
    | .ok _ => decide (status = 202)

/-- The seven-field dict `format_course_data` returns, as the Python value
`callMailFunction` hands to `sendMail` (src/fetch.py lines 66-75); the
fields rendered from the publish instant are abstracted to strings. -/
def routineFields (r : CourseData) : List (String × PyVal) :=
  [ ("id", match r.id with | some s => .vstr s | none => .vnone)
  , ("title", .vstr r.title)
  , ("published_norwegian", .vstr (toString r.published_norwegian))
  , ("published_iso", .vstr (toString r.published_norwegian))
  , ("search_url", .vstr r.search_url)
  , ("encoded_title", .vstr r.encoded_title)
  , ("formatted_date", .vstr (toString r.published_norwegian)) ]

/-- The mailer exactly as src/fetch.py wires it: `sendMail(routine_data)`
with the single routine dict. -/
def realMailer (token : Option String) (status : Nat) (r : CourseData) :
    Bool :=
  sendMail_py token status (.vdict (routineFields r))

/-! ## The sanitization described by the spec (for comparison)

The spec claims the title is sanitized before encoding; the claimed
sanitizer is defined here, clearly separated, only to be compared with
what the source actually does (`quote_plus` on the raw title). -/

/-- Collapse runs of spaces to a single space. -/
def squeezeSpaces : List Char → List Char
  | [] => []
  | [c] => [c]
  | c :: d :: rest =>
    if c = ' ' ∧ d = ' ' then squeezeSpaces (d :: rest)
    else c :: squeezeSpaces (d :: rest)

/-- Claimed by the spec (not found in the source): retain only letters
(including æ/ø/å and their uppercase forms), digits, spaces and `/`, and
collapse runs of whitespace. -/
def sanitize_title_claimed (s : String) : String :=
  let keep := fun (c : Char) =>
    c.isAlpha || c.isDigit || c = ' ' || c = '/' ||
    c = 'æ' || c = 'ø' || c = 'å' || c = 'Æ' || c = 'Ø' || c = 'Å'
  String.mk (squeezeSpaces (s.data.filter keep))

/-! ## Helper lemmas -/

theorem contains_iff_mem (c : List String) (s : String) :
    c.contains s = true ↔ s ∈ c := by
  simp [List.contains, List.elem_iff]

theorem updatecache_self_mem (s : String) (c : List String) :
    s ∈ updatecache (some s) c := by
  simp only [updatecache]
  split
  · next hc => exact (contains_iff_mem c s).mp hc
  · exact List.mem_cons_self s c

theorem updatecache_mono {x : String} {c : List String} (id : Option String)
    (hx : x ∈ c) : x ∈ updatecache id c := by
  cases id with
  | none => exact hx
  | some s =>
    simp only [updatecache]
    split
    · exact hx
    · exact List.mem_cons_of_mem s hx

theorem processEntry_allCount (m : CourseData → Bool) (st : PassState)
    (r : CourseData) : (processEntry m st r).allCount = st.allCount + 1 := by
  unfold processEntry
  split <;> rfl

theorem processEntry_cache (m : CourseData → Bool) (st : PassState)
    (r : CourseData) :
    (processEntry m st r).cache =
      if is_new_routine r st.cache then updatecache r.id st.cache
      else st.cache := by
  unfold processEntry
  split <;> simp_all

theorem runPass_nil (m : CourseData → Bool) (st : PassState) :
    runPass m [] st = st := rfl

theorem runPass_cons (m : CourseData → Bool) (st : PassState)
    (r : CourseData) (es : List CourseData) :
    runPass m (r :: es) st = runPass m es (processEntry m st r) := rfl

theorem runPass_allCount (m : CourseData → Bool) (es : List CourseData)
    (st : PassState) :
    (runPass m es st).allCount = st.allCount + es.length := by
  induction es generalizing st with
  | nil => simp [runPass_nil]
  | cons r rest ih =>
    rw [runPass_cons, ih, processEntry_allCount, List.length_cons]
    omega

theorem runPass_cache_mono (m : CourseData → Bool) (es : List CourseData)
    (st : PassState) {x : String} (hx : x ∈ st.cache) :
    x ∈ (runPass m es st).cache := by
  induction es generalizing st with
  | nil => simpa [runPass_nil] using hx
  | cons r rest ih =>
    rw [runPass_cons]
    apply ih
    rw [processEntry_cache]
    split
    · exact updatecache_mono r.id hx
    · exact hx

theorem processEntry_some_id_mem (m : CourseData → Bool) (st : PassState)
    {r : CourseData} {s : String} (hid : r.id = some s) :
    s ∈ (processEntry m st r).cache := by
  rw [processEntry_cache]
  split
  · rw [hid]; exact updatecache_self_mem s st.cache
  · rename_i hnot
    have : idMem r.id st.cache = true := by
      revert hnot
      unfold is_new_routine
      cases idMem r.id st.cache <;> simp
    rw [hid] at this
    exact (contains_iff_mem st.cache s).mp this

theorem runPass_entry_id_mem (m : CourseData → Bool) (es : List CourseData)
    (st : PassState) {r : CourseData} (hr : r ∈ es) {s : String}
    (hid : r.id = some s) : s ∈ (runPass m es st).cache := by
  induction es generalizing st with
  | nil => cases hr
  | cons r' rest ih =>
    rw [runPass_cons]
    rcases List.mem_cons.mp hr with h | h
    · subst h
      exact runPass_cache_mono m rest _ (processEntry_some_id_mem m st hid)
    · exact ih _ h

theorem processEntry_cache_congr (m m' : CourseData → Bool)
    (st st' : PassState) (r : CourseData) (hc : st.cache = st'.cache) :
    (processEntry m st r).cache = (processEntry m' st' r).cache := by
  rw [processEntry_cache, processEntry_cache, hc]

theorem runPass_cache_congr (m m' : CourseData → Bool) (es : List CourseData)
    (st st' : PassState) (hc : st.cache = st'.cache) :
    (runPass m es st).cache = (runPass m' es st').cache := by
  induction es generalizing st st' with
  | nil => simpa [runPass_nil] using hc
  | cons r rest ih =>
    rw [runPass_cons, runPass_cons]
    exact ih _ _ (processEntry_cache_congr m m' st st' r hc)

/-! ## Claims -/

/-- C10: when the `CLIENT_SECRET_EXPIRATION_DATE` configuration is absent,
`is_about_to_expire` returns the no-notification result `False`, invokes no
mail, and (being a total function here, matching the early `return False`
before any further work) raises no fatal error.  The empty-string value,
which the Python truthiness guard treats the same way, behaves
identically. -/
theorem c10_missing_config_disables_monitor (h : ℚ) :
    is_about_to_expire none h = (false, false) ∧
    is_about_to_expire (some "") h = (false, false) :=
  ⟨rfl, rfl⟩

/-- C3 counterexample: the claim says `h ≥ 588` yields no tier, but at
`h = 588` exactly, the first branch `420 <= h <= 588` matches and the
monitor assigns tier 3_week (and notifies). -/
theorem c3_counterexample_boundary_588 :
    (588 : ℚ) ≥ 588 ∧ tierOf 588 = some Tier.threeWeek ∧
    is_about_to_expire (some "10/01/2025") 588 = (true, true) := by
  refine ⟨le_refl _, by decide, by decide⟩

/-- C3 (amended): the coarse policy assigns 3_week iff `420 ≤ h ≤ 588`,
2_week iff `252 ≤ h < 420`, critical iff `h < 252`, and no tier iff
`h > 588` (not `h ≥ 588`): the boundary `h = 588` belongs to the 3_week
tier.  The mapping is a deterministic function and the iff
characterizations make the tiers mutually exclusive, reflecting the
short-circuiting if/elif evaluation in descending-remaining-time order. -/
theorem c3_amended_tier_mapping (h : ℚ) :
    (tierOf h = some Tier.threeWeek ↔ 420 ≤ h ∧ h ≤ 588) ∧
    (tierOf h = some Tier.twoWeek ↔ 252 ≤ h ∧ h < 420) ∧
    (tierOf h = some Tier.critical ↔ h < 252) ∧
    (tierOf h = none ↔ 588 < h) := by
  unfold tierOf
  by_cases h1 : 420 ≤ h ∧ h ≤ 588
  · rw [if_pos h1]
    refine ⟨by simpa using h1, ?_, ?_, ?_⟩
    · constructor
      · intro hx; simp at hx
      · rintro ⟨hha, hhb⟩; exfalso; linarith [h1.1]
    · constructor
      · intro hx; simp at hx
      · intro hx; exfalso; linarith [h1.1]
    · constructor
      · intro hx; simp at hx
      · intro hx; exfalso; linarith [h1.2]
  · rw [if_neg h1]
    by_cases h2 : 252 ≤ h ∧ h ≤ 420
    · rw [if_pos h2]
      push_neg at h1
      have hlt : h < 420 := by
        by_contra hc
        push_neg at hc
        have := h1 hc
        linarith [h2.2]
      refine ⟨?_, by simp [h2.1, hlt], ?_, ?_⟩
      · constructor
        · intro hx; simp at hx
        · rintro ⟨hha, hhb⟩; exfalso; linarith
      · constructor
        · intro hx; simp at hx
        · intro hx; exfalso; linarith [h2.1]
      · constructor
        · intro hx; simp at hx
        · intro hx; exfalso; linarith [h2.2]
    · rw [if_neg h2]
      by_cases h3 : h < 252
      · rw [if_pos h3]
        refine ⟨?_, ?_, by simp [h3], ?_⟩
        · constructor
          · intro hx; simp at hx
          · rintro ⟨hha, hhb⟩; exfalso; linarith
        · constructor
          · intro hx; simp at hx
          · rintro ⟨hha, hhb⟩; exfalso; linarith
        · constructor
          · intro hx; simp at hx
          · intro hx; exfalso; linarith
      · rw [if_neg h3]
        push_neg at h1 h2 h3
        have h420 : 420 < h := h2 h3
        have h588 : 588 < h := h1 (le_of_lt h420)
        refine ⟨?_, ?_, ?_, by simp [h588]⟩
        · constructor
          · intro hx; simp at hx
          · rintro ⟨hha, hhb⟩; exfalso; linarith
        · constructor
          · intro hx; simp at hx
          · rintro ⟨hha, hhb⟩; exfalso; linarith
        · constructor
          · intro hx; simp at hx
          · intro hx; exfalso; linarith

/-- C5 counterexample: the claim says the title is first sanitized
(dropping the en-dash, keeping `/`) and only then percent-encoded, so under
the claim the example title would encode as `quote_plus` of
`"Sikkerhet/Adferd 2024"`.  The source applies `quote_plus` directly to the
title: the en-dash is percent-encoded (`%E2%80%93`), not dropped, and the
result differs from the encoding of the claimed sanitized form. -/
theorem c5_counterexample_no_sanitization :
    (format_course_data "Sikkerhet/Adferd – 2024" "https://x.no/?p=7" 0).encoded_title
        = "Sikkerhet%2FAdferd+%E2%80%93+2024" ∧
    sanitize_title_claimed "Sikkerhet/Adferd – 2024" = "Sikkerhet/Adferd 2024" ∧
    (format_course_data "Sikkerhet/Adferd – 2024" "https://x.no/?p=7" 0).encoded_title
        ≠ quote_plus (sanitize_title_claimed "Sikkerhet/Adferd – 2024") := by
  refine ⟨by decide, by decide, by decide⟩

/-- C5 (amended): no character-class sanitization exists in the source; the
search URL percent-encodes the whitespace-trimmed title directly with
`quote_plus` (spaces become `+`, `/` becomes `%2F`, other characters are
percent-encoded as UTF-8 bytes).  In particular the example title encodes
to `Sikkerhet%2FAdferd+%E2%80%93+2024`: the en-dash is kept,
percent-encoded. -/
theorem c5_amended_quote_plus_direct (rawTitle entryId : String) (t : Int) :
    (format_course_data rawTitle entryId t).encoded_title
        = quote_plus (pyStrip rawTitle) ∧
    (format_course_data rawTitle entryId t).search_url
        = search_url_base ++ quote_plus (pyStrip rawTitle) ∧
    quote_plus "Sikkerhet/Adferd – 2024" = "Sikkerhet%2FAdferd+%E2%80%93+2024" :=
  ⟨rfl, rfl, by decide⟩

/-- C1 counterexample: the classifier in the source is not the rolling
7-day window.  A routine published far more than 7×24h before the current
local time but with an uncached id is classified new, and a routine
published at the current instant whose id is cached is classified not-new
— the decision consults the persisted cache and ignores the publish
time.  (`10000000` plays the role of `now_local` in seconds; the first
record's local publish instant is `7200`, more than 7×24×3600 seconds
earlier.) -/
theorem c1_counterexample :
    (let r := format_course_data "Gammel rutine"
        "https://quality.k2kompetanse.no/?p=111" 0
     is_new_routine r [] = true ∧
       (10000000 : Int) - r.published_norwegian > 7 * 24 * 3600) ∧
    (let r2 := format_course_data "Fersk rutine"
        "https://quality.k2kompetanse.no/?p=222" (10000000 - 7200)
     is_new_routine r2 ["222"] = false ∧
       (10000000 : Int) - r2.published_norwegian ≤ 7 * 24 * 3600) := by
  refine ⟨⟨by decide, by decide⟩, ⟨by decide, by decide⟩⟩

/-- C1 (amended): under the policy actually implemented by
`is_new_routine`, a record is new iff its id is absent from the persisted
routine-id cache; the publish instant (and hence wall-clock time) plays no
role — two records with the same id but arbitrary publish times are
classified identically. -/
theorem c1_amended_cache_based (r r' : CourseData) (cache : List String)
    (hid : r.id = r'.id) :
    is_new_routine r cache = is_new_routine r' cache ∧
    (is_new_routine r cache = true ↔ idMem r.id cache = false) := by
  constructor
  · unfold is_new_routine
    rw [hid]
  · unfold is_new_routine
    cases idMem r.id cache <;> simp

/-- C1 (amended) witness: two records sharing id `111` but published
5 000 000 seconds apart are classified the same way against a cache
containing `111`, and classification equals cache absence. -/
theorem c1_amended_cache_based_witness :
    (let r := format_course_data "Gammel rutine"
        "https://quality.k2kompetanse.no/?p=111" 0
     let r' := format_course_data "Samme rutine"
        "https://quality.k2kompetanse.no/?p=111" 5000000
     is_new_routine r ["111"] = is_new_routine r' ["111"] ∧
       (is_new_routine r ["111"] = true ↔ idMem r.id ["111"] = false)) :=
  c1_amended_cache_based _ _ ["111"] (by decide)

theorem ledgerEntries_filter_out (ledger : List (String × List String))
    (key : String) :
    ledgerEntries (ledger.filter fun p => !(p.1 == key)) key = [] := by
  induction ledger with
  | nil => rfl
  | cons p rest ih =>
    by_cases hp : (p.1 == key) = true
    · have hfilter : List.filter (fun q => !(q.1 == key)) (p :: rest)
          = List.filter (fun q => !(q.1 == key)) rest := by
        simp [List.filter_cons, hp]
      rw [hfilter]
      exact ih
    · have hfilter : List.filter (fun q => !(q.1 == key)) (p :: rest)
          = p :: List.filter (fun q => !(q.1 == key)) rest := by
        simp [List.filter_cons, hp]
      rw [hfilter]
      have hstep : ledgerEntries
          (p :: List.filter (fun q => !(q.1 == key)) rest) key
          = ledgerEntries (List.filter (fun q => !(q.1 == key)) rest) key := by
        unfold ledgerEntries
        have hfind : List.find? (fun q => q.1 == key)
            (p :: List.filter (fun q => !(q.1 == key)) rest)
            = List.find? (fun q => q.1 == key)
              (List.filter (fun q => !(q.1 == key)) rest) := by
          simp [List.find?, hp]
        rw [hfind]
      rw [hstep]
      exact ih

/-- C4 (spec-modelled): on an invocation with `hoursRemaining > 720` whose
current expiry-date key already has ledger entries, the purge runs before
tier evaluation and removes every entry stored under that key; the tier is
then computed from the remaining hours alone.  In particular stale entries
recorded under the key before a credential rotation are cleared by the
first recomputation against the materially later expiry date. -/
theorem c4_ledger_purge (ledger : List (String × List String)) (key : String)
    (h : ℚ) (h720 : 720 < h) (hent : ledgerEntries ledger key ≠ []) :
    ledgerEntries (monitorWithLedger ledger key h).1 key = [] ∧
    (monitorWithLedger ledger key h).2 = tierOf h := by
  refine ⟨?_, rfl⟩
  unfold monitorWithLedger purgeStale
  rw [if_pos ⟨h720, hent⟩]
  exact ledgerEntries_filter_out ledger key

/-- C4 witness: a ledger holding tiers recorded under the expiry date
`09/01/2025` is cleared for that key when the monitor recomputes 800 hours
(more than 720) before the newly configured expiry. -/
theorem c4_ledger_purge_witness :
    ledgerEntries
        (monitorWithLedger [("09/01/2025", ["3_week", "2_week"])]
          "09/01/2025" 800).1 "09/01/2025" = [] ∧
    (monitorWithLedger [("09/01/2025", ["3_week", "2_week"])]
        "09/01/2025" 800).2 = tierOf 800 :=
  c4_ledger_purge [("09/01/2025", ["3_week", "2_week"])] "09/01/2025" 800
    (by norm_num) (by decide)

/-- C6 counterexample: the cache is not bounded to the most recent 10 ids.
Starting from the empty cache, a pass over eleven novel entries leaves all
eleven ids in the cache — `updatecache` only inserts (`INSERT OR IGNORE`)
and nothing ever evicts old rows. -/
theorem c6_counterexample_unbounded_cache :
    (runPass (fun _ => false)
        ((List.range 11).map fun i =>
          format_course_data "T" ("https://x.no/?p=" ++ toString (i + 1)) 0)
        initState).cache.length = 11 := by
  decide

/-- C6 (amended): under the cache-based policy, classification never stops
early — every entry of the feed is evaluated (the processed count grows by
exactly the number of entries); a record is new iff its id is absent from
the cache; each record carrying an id ends the pass with that id in the
cache; and the cache is unbounded: no previously stored id is ever evicted
(rather than being bounded to the most recent 10). -/
theorem c6_amended_full_evaluation (mailer : CourseData → Bool)
    (entries : List CourseData) (st : PassState) :
    (runPass mailer entries st).allCount = st.allCount + entries.length ∧
    (∀ x ∈ st.cache, x ∈ (runPass mailer entries st).cache) ∧
    (∀ r ∈ entries, ∀ s : String, r.id = some s →
        s ∈ (runPass mailer entries st).cache) ∧
    (∀ (r : CourseData) (c : List String),
        is_new_routine r c = true ↔ idMem r.id c = false) := by
  refine ⟨runPass_allCount mailer entries st,
    fun x hx => runPass_cache_mono mailer entries st hx,
    fun r hr s hid => runPass_entry_id_mem mailer entries st hr hid,
    fun r c => ?_⟩
  unfold is_new_routine
  cases idMem r.id c <;> simp

/-- C6 (amended) witness: a two-entry pass over a state whose cache already
holds `"5"` evaluates both entries, keeps `"5"`, and records the new id
`"7"`. -/
theorem c6_amended_full_evaluation_witness :
    (runPass (fun _ => false)
        [format_course_data "A" "https://x.no/?p=7" 0,
         format_course_data "B" "https://x.no/?p=5" 0]
        { initState with cache := ["5"] }).allCount = 0 + 2 ∧
    "5" ∈ (runPass (fun _ => false)
        [format_course_data "A" "https://x.no/?p=7" 0,
         format_course_data "B" "https://x.no/?p=5" 0]
        { initState with cache := ["5"] }).cache ∧
    "7" ∈ (runPass (fun _ => false)
        [format_course_data "A" "https://x.no/?p=7" 0,
         format_course_data "B" "https://x.no/?p=5" 0]
        { initState with cache := ["5"] }).cache := by
  refine ⟨(c6_amended_full_evaluation _ _ _).1, ?_, ?_⟩
  · exact (c6_amended_full_evaluation _ _ _).2.1 "5" (by decide)
  · exact (c6_amended_full_evaluation _ _ _).2.2.1
      (format_course_data "A" "https://x.no/?p=7" 0) (by simp) "7" (by decide)

/-- C7: an entry whose id URL does not end in `p=<digits>` (i.e. on which
the regex search fails, `extractId = none`) still yields a fully formed
routine record — the id is `None` rather than a failure and the search URL
is still built; under the cache-based policy such a record is classified
new against every cache (a `None` id never matches a stored id), and
`updatecache` never stores it (the NULL insert is skipped), so it stays
new on every later pass. -/
theorem c7_none_id_always_new (rawTitle entryId : String) (t : Int)
    (cache : List String) (hnone : extractId entryId = none) :
    (format_course_data rawTitle entryId t).id = none ∧
    (format_course_data rawTitle entryId t).search_url
        = search_url_base ++ quote_plus (pyStrip rawTitle) ∧
    is_new_routine (format_course_data rawTitle entryId t) cache = true ∧
    updatecache (format_course_data rawTitle entryId t).id cache = cache := by
  refine ⟨by simp [format_course_data, hnone], rfl, ?_, ?_⟩
  · simp [is_new_routine, idMem, format_course_data, hnone]
  · simp [updatecache, format_course_data, hnone]

/-- C7 witness: the entry id `https://quality.k2kompetanse.no/?page=home`
has no trailing `p=<digits>`; against the cache `["12", "34"]` the record
is classified new and the cache is left unchanged. -/
theorem c7_none_id_always_new_witness :
    (format_course_data "Ny rutine"
        "https://quality.k2kompetanse.no/?page=home" 0).id = none ∧
    (format_course_data "Ny rutine"
        "https://quality.k2kompetanse.no/?page=home" 0).search_url
        = search_url_base ++ quote_plus (pyStrip "Ny rutine") ∧
    is_new_routine (format_course_data "Ny rutine"
        "https://quality.k2kompetanse.no/?page=home" 0) ["12", "34"] = true ∧
    updatecache (format_course_data "Ny rutine"
        "https://quality.k2kompetanse.no/?page=home" 0).id ["12", "34"]
        = ["12", "34"] :=
  c7_none_id_always_new "Ny rutine"
    "https://quality.k2kompetanse.no/?page=home" 0 ["12", "34"] (by decide)

theorem sendMail_vdict_false (token : Option String) (status : Nat)
    (kv : String × PyVal) (rest : List (String × PyVal)) :
    sendMail_py token status (.vdict (kv :: rest)) = false := by
  cases token with
  | none => rfl
  | some t =>
    simp [sendMail_py, sendMail_message, pyIter, renderAll,
      renderRoutineBlock, pyGetItemStr]

theorem realMailer_false (token : Option String) (status : Nat)
    (r : CourseData) : realMailer token status r = false :=
  sendMail_vdict_false token status _ _

/-- C8: `sendMail(routine_data)` with the seven-field routine mapping
always returns `False`: the count is the number of dict keys, iteration
yields the string keys, and indexing a key string with `'title'` raises a
`TypeError` that the handler converts into `False` (when no token is
acquired the result is `False` even earlier).  Consequently
`callMailFunction` never observes success and never clears
`is_first_routine` or sets `first_routine_id`. -/
theorem c8_sendmail_dict_always_false (token : Option String) (status : Nat)
    (fields : List (String × PyVal)) (hne : fields ≠ []) :
    pyLen (.vdict fields) = fields.length ∧
    sendMail_py token status (.vdict fields) = false ∧
    ∀ (id : Option String) (isFirst : Bool) (firstId : Option String),
      callMailFunction (sendMail_py token status (.vdict fields)) id isFirst
        firstId = (isFirst, firstId) := by
  obtain ⟨kv, rest, rfl⟩ : ∃ kv rest, fields = kv :: rest := by
    cases fields with
    | nil => exact absurd rfl hne
    | cons kv rest => exact ⟨kv, rest, rfl⟩
  refine ⟨rfl, sendMail_vdict_false token status kv rest, ?_⟩
  intro id isFirst firstId
  rw [sendMail_vdict_false token status kv rest]
  rfl

/-- C8 witness: the concrete seven-field mapping of a freshly normalized
routine, with a token present and the Graph endpoint answering 202, still
yields `False`, and the first-routine flag stays `True`. -/
theorem c8_sendmail_dict_always_false_witness :
    sendMail_py (some "token") 202
        (.vdict (routineFields
          (format_course_data "Ny rutine" "https://x.no/?p=9" 0))) = false ∧
    callMailFunction
        (sendMail_py (some "token") 202
          (.vdict (routineFields
            (format_course_data "Ny rutine" "https://x.no/?p=9" 0))))
        (some "9") true none = (true, none) :=
  ⟨(c8_sendmail_dict_always_false (some "token") 202 _
      (by simp [routineFields])).2.1,
   (c8_sendmail_dict_always_false (some "token") 202 _
      (by simp [routineFields])).2.2 (some "9") true none⟩

/-- C9 counterexample: the claim's "every record classified new … is never
re-notified on any later pass" fails for a record whose id URL has no
`p=<digits>` suffix.  Such a record is classified new, the pass makes its
mail attempt, but `updatecache(None)` stores nothing, so the identical
record is classified new again against the resulting cache. -/
theorem c9_counterexample_none_id_renotified :
    (let r := format_course_data "Uten id" "https://x.no/?page=home" 0
     is_new_routine r [] = true ∧
     (runPass (fun _ => false) [r] initState).mailCalls = 1 ∧
     (runPass (fun _ => false) [r] initState).cache = [] ∧
     is_new_routine r (runPass (fun _ => false) [r] initState).cache
        = true) := by
  exact ⟨by decide, by decide, by decide, by decide⟩

/-- C9 (amended): for every record classified new whose id was parsed
(`id ≠ None`), the cache update is unconditional on the mail outcome: the
cache evolves identically under any two mailers (so a failed send changes
nothing about what is recorded), the record's id is in the cache
immediately after its loop iteration, and the record is classified
not-new from then on — it is never re-notified even when its notification
failed. -/
theorem c9_amended_unconditional_cache_update
    (mailer mailer' : CourseData → Bool) (entries : List CourseData)
    (st st' : PassState) (hc : st.cache = st'.cache) (r : CourseData)
    (s : String) (hid : r.id = some s)
    (_hnew : is_new_routine r st.cache = true) :
    (runPass mailer entries st).cache = (runPass mailer' entries st').cache ∧
    (processEntry mailer st r).cache = (processEntry mailer' st' r).cache ∧
    s ∈ (processEntry mailer st r).cache ∧
    is_new_routine r (processEntry mailer st r).cache = false := by
  have hmem : s ∈ (processEntry mailer st r).cache :=
    processEntry_some_id_mem mailer st hid
  have hcont : (processEntry mailer st r).cache.contains s = true :=
    (contains_iff_mem _ s).mpr hmem
  refine ⟨runPass_cache_congr mailer mailer' entries st st' hc,
    processEntry_cache_congr mailer mailer' st st' r hc, ?_, ?_⟩
  · exact hmem
  · simp [is_new_routine, idMem, hid]
    exact hmem

/-- C9 (amended) witness: a routine with id `3`, classified new against the
empty cache, has its id cached after its iteration whether the mailer
reports success or failure, and is then classified not-new. -/
theorem c9_amended_unconditional_cache_update_witness :
    (runPass (fun _ => true)
        [format_course_data "R" "https://x.no/?p=3" 0] initState).cache
      = (runPass (fun _ => false)
        [format_course_data "R" "https://x.no/?p=3" 0] initState).cache ∧
    (processEntry (fun _ => true) initState
        (format_course_data "R" "https://x.no/?p=3" 0)).cache
      = (processEntry (fun _ => false) initState
        (format_course_data "R" "https://x.no/?p=3" 0)).cache ∧
    "3" ∈ (processEntry (fun _ => true) initState
        (format_course_data "R" "https://x.no/?p=3" 0)).cache ∧
    is_new_routine (format_course_data "R" "https://x.no/?p=3" 0)
        (processEntry (fun _ => true) initState
          (format_course_data "R" "https://x.no/?p=3" 0)).cache = false :=
  c9_amended_unconditional_cache_update (fun _ => true) (fun _ => false)
    [format_course_data "R" "https://x.no/?p=3" 0] initState initState rfl
    (format_course_data "R" "https://x.no/?p=3" 0) "3" (by decide) (by decide)

/-- Two-entry demonstration feed for the digest-batching claim. -/
def demoFeed : List CourseData :=
  [format_course_data "Rutine A" "https://x.no/?p=1" 0,
   format_course_data "Rutine B" "https://x.no/?p=2" 0]

/-- C2 (code bug): the pass does not batch.  With the mailer wired exactly
as src/fetch.py does (`sendMail(routine_data)` on the per-routine dict),
every new routine triggers its own `sendMail` invocation — a pass over two
new routines makes two mailer invocations, not at most one — and every
such invocation fails before posting, so zero messages are sent even
though the new-record sequence is non-empty.  The single-digest rendering
the claim describes (count-encoded subject, per-routine body blocks in
order) is exactly what `sendMail` produces when handed a list of routine
dicts, which the caller never does. -/
theorem c2_per_routine_mailer_behavior (token : Option String)
    (status : Nat) :
    (∀ r : CourseData, realMailer token status r = false) ∧
    (runPass (realMailer token status) demoFeed initState).mailCalls = 2 ∧
    (runPass (realMailer token status) demoFeed initState).sentOk = 0 ∧
    (runPass (realMailer token status) demoFeed initState).newRoutines.length
        = 2 ∧
    sendMail_message (.vlist
        [.vdict [("title", .vstr "Rutine A"),
                 ("formatted_date", .vstr "1. jan 2025"),
                 ("search_url", .vstr "uA")],
         .vdict [("title", .vstr "Rutine B"),
                 ("formatted_date", .vstr "2. jan 2025"),
                 ("search_url", .vstr "uB")]])
      = .ok ("K2 Quality: 2 nye rutiner publisert",
             [("Rutine A", "1. jan 2025", "uA"),
              ("Rutine B", "2. jan 2025", "uB")]) := by
  have hm : realMailer token status = fun _ => false :=
    funext fun r => realMailer_false token status r
  rw [hm]
  exact ⟨fun r => rfl, by decide, by decide, by decide, rfl⟩

end RoutineNotif
